import Mathlib

/-!
Verification of the streaming-subscription core of `src/CapitalA.py`
(`CapitalComAPI`): the subscription registry, the WebSocket supervisor's
reconnect loop, the inbound-message router, and the subscribe/unsubscribe
facade.  Python dictionaries are embedded as insertion-ordered association
lists, the manager's mutable fields as an explicit `SysState` record, and
the concurrent threads as atomic events of a step relation (`step`,
`Reachable`).  Frames sent on the wire are returned as values.
-/

set_option maxRecDepth 4000

/-- `WebSocketStatus` enum of the source. -/
inductive WebSocketStatus where
  | DISCONNECTED
  | CONNECTING
  | CONNECTED
  | STOPPING
deriving DecidableEq, Repr

/-- `WebsocketDataType` enum of the source. -/
inductive WebsocketDataType where
  | MARKET
  | OHLC
deriving DecidableEq, Repr

/-- `.value` of `WebsocketDataType` members. -/
def WebsocketDataType.value : WebsocketDataType → String
  | .MARKET => "MARKET"
  | .OHLC => "OHLC"

/-- `OhlcBarType` enum of the source. -/
inductive OhlcBarType where
  | CLASSIC
  | HEIKIN_ASHI
deriving DecidableEq, Repr

/-- `.value` of `OhlcBarType` members. -/
def OhlcBarType.value : OhlcBarType → String
  | .CLASSIC => "classic"
  | .HEIKIN_ASHI => "heikin-ashi"

/-- `HistoricalPriceResolution` enum of the source. -/
inductive HistoricalPriceResolution where
  | MINUTE
  | MINUTE_5
  | MINUTE_10
  | MINUTE_15
  | MINUTE_30
  | HOUR
  | HOUR_2
  | HOUR_3
  | HOUR_4
  | DAY
  | WEEK
  | MONTH
deriving DecidableEq, Repr

/-- `.value` of `HistoricalPriceResolution` members. -/
def HistoricalPriceResolution.value : HistoricalPriceResolution → String
  | .MINUTE => "MINUTE"
  | .MINUTE_5 => "MINUTE_5"
  | .MINUTE_10 => "MINUTE_10"
  | .MINUTE_15 => "MINUTE_15"
  | .MINUTE_30 => "MINUTE_30"
  | .HOUR => "HOUR"
  | .HOUR_2 => "HOUR_2"
  | .HOUR_3 => "HOUR_3"
  | .HOUR_4 => "HOUR_4"
  | .DAY => "DAY"
  | .WEEK => "WEEK"
  | .MONTH => "MONTH"

/-- One value of the `self._ws_subscriptions` dict: the per-subscription
record stored by `subscribe_to_epic_data`.  The Python callback object is
embedded as an opaque identifier (`Nat`); `resolution` and `bar_type` are
`Option`s because the dict is read back with `.get`, which may yield
`None`. -/
structure SubRecord where
  callback : Nat
  epic : String
  data_type : WebsocketDataType
  resolution : Option HistoricalPriceResolution
  bar_type : Option OhlcBarType
  active : Bool
deriving DecidableEq, Repr

/-- `self._ws_subscriptions`: a Python dict embedded as an
insertion-ordered association list with unique keys. -/
abbrev Registry := List (String × SubRecord)

/-- Dict lookup `d.get(k)`. -/
def regLookup (k : String) : Registry → Option SubRecord
  | [] => none
  | (k', v) :: rest => if k' = k then some v else regLookup k rest

/-- Dict update `d[k] = v`: replaces in place if the key exists
(preserving insertion order, as Python dicts do), else appends. -/
def regUpsert (k : String) (v : SubRecord) : Registry → Registry
  | [] => [(k, v)]
  | (k', v') :: rest =>
      if k' = k then (k, v) :: rest else (k', v') :: regUpsert k v rest

/-- Dict removal `d.pop(k, None)`: returns the removed value (if any) and
the remaining dict. -/
def regPop (k : String) : Registry → Option SubRecord × Registry
  | [] => (none, [])
  | (k', v) :: rest =>
      if k' = k then (some v, rest)
      else
        let r := regPop k rest
        (r.1, (k', v) :: r.2)

/-- Python truthiness of an optional string (`if s:`): absent and empty
strings are falsy. -/
def strTruthy : Option String → Bool
  | none => false
  | some s => s != ""

/-- `self._ws_max_reconnect_attempts` (line 96 of the source). -/
def ws_max_reconnect_attempts : Nat := 10

/-- `self._ws_initial_reconnect_delay` (line 97 of the source). -/
def ws_initial_reconnect_delay : Nat := 5

/-- `self._ws_max_reconnect_delay` (line 98 of the source). -/
def ws_max_reconnect_delay : Nat := 60

/-- The mutable fields of `CapitalComAPI` that the streaming core reads
and writes.  `threadAlive` stands for `self.ws_thread and
self.ws_thread.is_alive()`, `connection` for `self.ws_connection` being a
live object, `stopEvent` for `self._ws_stop_event.is_set()`, `cst`/`xst`
for the auth token strings (`None` when absent). -/
structure SysState where
  subs : Registry
  status : WebSocketStatus
  stopEvent : Bool
  threadAlive : Bool
  connection : Bool
  cst : Option String
  xst : Option String
  attempts : Nat
deriving DecidableEq, Repr

/-- `self.cst and self.x_security_token` as a truthiness test. -/
def hasTokens (s : SysState) : Bool :=
  strTruthy s.cst && strTruthy s.xst

/-- An outbound control frame (`subscribe_msg` / `unsubscribe_msg` /
resubscribe message): the JSON object passed to `ws.send`, with the
optional payload members (`resolutions`, `type`, `types`) as `Option`s. -/
structure ControlFrame where
  destination : String
  correlationId : String
  cst : String
  securityToken : String
  payload_epics : List String
  payload_resolutions : Option (List String)
  payload_type : Option String
  payload_types : Option (List String)
deriving DecidableEq, Repr

/-- The `payload` member of an inbound frame.  A present key maps to
`some`; `subscriptionsFirstValue` is the first value of the
`subscriptions` sub-dict when that sub-dict is present and non-empty. -/
structure WsPayload where
  epic : Option String
  resolution : Option String
  type : Option String
  subscriptionsFirstValue : Option String
deriving DecidableEq, Repr

/-- An inbound (already JSON-parsed) frame as `_ws_on_message` reads it.
An absent or empty (falsy) `payload` dict is embedded as `none`. -/
structure InMsg where
  errorCode : Option String
  status : Option String
  correlationId : Option String
  destination : Option String
  payload : Option WsPayload
deriving DecidableEq, Repr

/-- `_start_websocket_thread` (lines 974-992): a no-op when the thread is
alive and the status is `CONNECTED`; otherwise clears the stop events,
resets the attempt counter, sets `CONNECTING` and (re)starts the thread. -/
def startThread (s : SysState) : SysState :=
  if s.threadAlive ∧ s.status = WebSocketStatus.CONNECTED then s
  else { s with stopEvent := false, attempts := 0,
                status := WebSocketStatus.CONNECTING, threadAlive := true }

/-- `_stop_websocket_thread` (lines 994-1039): a no-op when the status is
already `DISCONNECTED` and no thread is alive; otherwise sets the stop
event, closes the transport, joins the thread and ends with status
`DISCONNECTED` (the transient `STOPPING` is internal to the call). -/
def stopThread (s : SysState) : SysState :=
  if s.status = WebSocketStatus.DISCONNECTED ∧ s.threadAlive = false then s
  else { s with stopEvent := true, connection := false,
                threadAlive := false, status := WebSocketStatus.DISCONNECTED }

/-- The stream key / control destination / payload extras computed by
`subscribe_to_epic_data` (lines 1052-1067): `none` when `data_type` is
`OHLC` and `resolution` is absent (the `ValueError` case). -/
def subscribeControl (data_type : WebsocketDataType) (epic : String)
    (resolution : Option HistoricalPriceResolution) (bar_type : OhlcBarType) :
    Option (String × String × Option (List String) × Option String) :=
  match data_type with
  | .MARKET => some ("/market/" ++ epic, "marketData.subscribe", none, none)
  | .OHLC =>
      match resolution with
      | none => none
      | some r =>
          some ("/ohlc/" ++ epic ++ "/" ++ r.value ++ "/" ++ bar_type.value,
                "OHLCMarketData.subscribe",
                some [r.value], some bar_type.value)

/-- The stream key / control destination / payload extras computed by
`unsubscribe_from_epic_data` (lines 1110-1127); note the unsubscribe
payload uses `types` (a list), not `type`. -/
def unsubscribeControl (data_type : WebsocketDataType) (epic : String)
    (resolution : Option HistoricalPriceResolution) (bar_type : OhlcBarType) :
    Option (String × String × Option (List String) × Option (List String)) :=
  match data_type with
  | .MARKET => some ("/market/" ++ epic, "marketData.unsubscribe", none, none)
  | .OHLC =>
      match resolution with
      | none => none
      | some r =>
          some ("/ohlc/" ++ epic ++ "/" ++ r.value ++ "/" ++ bar_type.value,
                "OHLCMarketData.unsubscribe",
                some [r.value], some [bar_type.value])

/-- The correlation id built by `subscribe_to_epic_data` (line 1087),
with `int(time.time())` passed in as `now`. -/
def subCorrelationId (now : Nat) (epic : String) (data_type : WebsocketDataType)
    (resolution : Option HistoricalPriceResolution) (bar_type : OhlcBarType) : String :=
  "sub-" ++ epic ++ "-" ++ data_type.value ++ "-" ++
    (match resolution with | some r => r.value | none => "") ++ "-" ++
    (if data_type = WebsocketDataType.OHLC then bar_type.value else "") ++ "-" ++
    toString now

/-- The dict entry written by `subscribe_to_epic_data` (lines 1072-1079):
always stored with `active = True` and the passed `bar_type`. -/
def subRecordOf (callback : Nat) (epic : String) (data_type : WebsocketDataType)
    (resolution : Option HistoricalPriceResolution) (bar_type : OhlcBarType) :
    SubRecord :=
  { callback := callback, epic := epic, data_type := data_type,
    resolution := resolution, bar_type := some bar_type, active := true }

/-- The send phase of `subscribe_to_epic_data` (lines 1086-1103), run on
the state `s2` after the registry upsert and `_start_websocket_thread`:
the subscribe frame goes out right away only when `CONNECTED` with a live
connection. -/
def subscribeSendPhase (now : Nat) (epic : String)
    (data_type : WebsocketDataType)
    (resolution : Option HistoricalPriceResolution) (bar_type : OhlcBarType)
    (controlDest : String) (payloadRes : Option (List String))
    (payloadType : Option String) (s2 : SysState) :
    Except String (SysState × List ControlFrame) :=
  if s2.status = WebSocketStatus.CONNECTED ∧ s2.connection then
    .ok (s2, [{ destination := controlDest,
                correlationId := subCorrelationId now epic data_type resolution bar_type,
                cst := s2.cst.getD "", securityToken := s2.xst.getD "",
                payload_epics := [epic],
                payload_resolutions := payloadRes,
                payload_type := payloadType,
                payload_types := none }])
  else .ok (s2, [])

/-- `subscribe_to_epic_data` (lines 1041-1103).  Returns the new state
and the frames sent, or `.error` for a raised `ValueError`.  With tokens
missing the function logs and returns having changed nothing (lines
1047-1050); otherwise it validates, upserts the record, ensures the
thread is started and best-effort sends. -/
def subscribe_to_epic_data (now : Nat) (epic : String)
    (data_type : WebsocketDataType) (callback : Nat)
    (resolution : Option HistoricalPriceResolution) (bar_type : OhlcBarType)
    (s : SysState) : Except String (SysState × List ControlFrame) :=
  if hasTokens s = false then .ok (s, [])
  else
    match subscribeControl data_type epic resolution bar_type with
    | none => .error "Resolution must be provided for OHLC data type subscription."
    | some (key, controlDest, payloadRes, payloadType) =>
        subscribeSendPhase now epic data_type resolution bar_type controlDest
          payloadRes payloadType
          (startThread { s with
            subs := regUpsert key (subRecordOf callback epic data_type resolution bar_type) s.subs })

/-- The correlation id built by `unsubscribe_from_epic_data` (line 1138). -/
def unsubCorrelationId (now : Nat) (epic : String) (data_type : WebsocketDataType)
    (resolution : Option HistoricalPriceResolution) (bar_type : OhlcBarType) : String :=
  "unsub-" ++ epic ++ "-" ++ data_type.value ++ "-" ++
    (match resolution with | some r => r.value | none => "") ++ "-" ++
    (if data_type = WebsocketDataType.OHLC then bar_type.value else "") ++ "-" ++
    toString now

/-- The frames sent by `unsubscribe_from_epic_data` (lines 1134-1152),
given the popped record (if any) and the state `s1` after the pop: a
single unsubscribe frame when a record was removed and the connection is
`CONNECTED` with tokens present. -/
def unsubFrames (now : Nat) (epic : String) (data_type : WebsocketDataType)
    (resolution : Option HistoricalPriceResolution) (bar_type : OhlcBarType)
    (controlDest : String) (payloadRes : Option (List String))
    (payloadTypes : Option (List String)) (popped : Option SubRecord)
    (s1 : SysState) : List ControlFrame :=
  match popped with
  | some _ =>
      if s1.status = WebSocketStatus.CONNECTED ∧ s1.connection ∧ hasTokens s1 then
        [{ destination := controlDest,
           correlationId := unsubCorrelationId now epic data_type resolution bar_type,
           cst := s1.cst.getD "", securityToken := s1.xst.getD "",
           payload_epics := [epic],
           payload_resolutions := payloadRes,
           payload_type := none,
           payload_types := payloadTypes }]
      else []
  | none => []

/-- The closing phase of `unsubscribe_from_epic_data` (lines 1156-1163):
stop the WebSocket thread when no subscriptions remain and the status is
neither `DISCONNECTED` nor `STOPPING`. -/
def unsubFinish (s1 : SysState) : SysState :=
  if s1.subs = [] ∧ s1.status ≠ WebSocketStatus.DISCONNECTED ∧
      s1.status ≠ WebSocketStatus.STOPPING then
    stopThread s1
  else s1

/-- `unsubscribe_from_epic_data` (lines 1105-1163).  Pops the record,
sends an unsubscribe frame when one was present and the connection is up
with tokens, and stops the WebSocket thread when the registry became
empty and the status is neither `DISCONNECTED` nor `STOPPING`. -/
def unsubscribe_from_epic_data (now : Nat) (epic : String)
    (data_type : WebsocketDataType)
    (resolution : Option HistoricalPriceResolution) (bar_type : OhlcBarType)
    (s : SysState) : Except String (SysState × List ControlFrame) :=
  match unsubscribeControl data_type epic resolution bar_type with
  | none => .error "Resolution must be provided for OHLC data type unsubscription to identify the correct stream."
  | some (key, controlDest, payloadRes, payloadTypes) =>
      .ok (unsubFinish { s with subs := (regPop key s.subs).2 },
           unsubFrames now epic data_type resolution bar_type controlDest
             payloadRes payloadTypes (regPop key s.subs).1
             { s with subs := (regPop key s.subs).2 })

/-- The correlation id built in the `_ws_on_open` resubscription loop
(line 874). -/
def reopenCorrelationId (now : Nat) (epic : String)
    (data_type : WebsocketDataType) : String :=
  "reopen-" ++ epic ++ "-" ++ data_type.value ++ "-" ++ toString now

/-- The resubscription loop of `_ws_on_open` (lines 868-905): one frame
per active record; an `OHLC` record with `resolution` or `bar_type`
missing is skipped (`continue` after logging); inactive records are
skipped. -/
def resubLoop (now : Nat) (cst xst : String) : Registry → List ControlFrame
  | [] => []
  | (_, info) :: rest =>
      if info.active then
        match info.data_type with
        | .MARKET =>
            { destination := "marketData.subscribe",
              correlationId := reopenCorrelationId now info.epic info.data_type,
              cst := cst, securityToken := xst,
              payload_epics := [info.epic],
              payload_resolutions := none,
              payload_type := none,
              payload_types := none } :: resubLoop now cst xst rest
        | .OHLC =>
            match info.resolution, info.bar_type with
            | some r, some b =>
                { destination := "OHLCMarketData.subscribe",
                  correlationId := reopenCorrelationId now info.epic info.data_type,
                  cst := cst, securityToken := xst,
                  payload_epics := [info.epic],
                  payload_resolutions := some [r.value],
                  payload_type := some b.value,
                  payload_types := none } :: resubLoop now cst xst rest
            | _, _ => resubLoop now cst xst rest
      else resubLoop now cst xst rest

/-- The body of `_ws_on_open` after the status and counter updates
(lines 848-905), on the state `s1` with status already `CONNECTED`: with
tokens missing the stop event is set and the connection closed; otherwise
the registry snapshot is resubscribed record by record. -/
def onOpenTokenPhase (now : Nat) (s1 : SysState) :
    SysState × List ControlFrame :=
  if hasTokens s1 = false then
    ({ s1 with stopEvent := true, connection := false }, [])
  else
    (s1, resubLoop now (s1.cst.getD "") (s1.xst.getD "") s1.subs)

/-- `_ws_on_open` (lines 843-905): the transport opened, status becomes
`CONNECTED` and the attempt counter resets, then the token check and the
resubscription loop run. -/
def ws_on_open (now : Nat) (s : SysState) : SysState × List ControlFrame :=
  onOpenTokenPhase now { s with status := WebSocketStatus.CONNECTED,
                                attempts := 0, connection := true }


/-- The stream-lookup key the router derives from an inbound data frame
(`_ws_on_message`, lines 777-790): destination `quote` maps to the
`MARKET` key form; destination `ohlc.event` needs a truthy `resolution`
and defaults a missing `type` to `classic`
(`payload.get("type", OhlcBarType.CLASSIC.value)`). -/
def routerKey (destination : Option String) (p : WsPayload) : Option String :=
  match p.epic with
  | none => none
  | some epic =>
      if destination = some "quote" then some ("/market/" ++ epic)
      else if destination = some "ohlc.event" then
        if strTruthy p.resolution then
          some ("/ohlc/" ++ epic ++ "/" ++ p.resolution.getD "" ++ "/" ++
                p.type.getD OhlcBarType.CLASSIC.value)
        else none
      else none

/-- `_ws_on_message` (lines 748-819).  Returns the new state and, when a
data frame was dispatched, the stream key and callback identifier it was
dispatched to.  Branch order follows the source: error frames first (the
authentication-failure code sets the stop event and closes the
connection), then control acks, then data frames keyed through
`routerKey` and looked up in the registry. -/
def ws_on_message (msg : InMsg) (s : SysState) : SysState × Option (String × Nat) :=
  if strTruthy msg.errorCode then
    if msg.errorCode = some "exceptions.security.authentication-failure" then
      ({ s with stopEvent := true, connection := false }, none)
    else (s, none)
  else if msg.status == some "OK" && msg.correlationId.isSome &&
      (match msg.payload with
       | some p => p.subscriptionsFirstValue == some "PROCESSED"
       | none => false) then (s, none)
  else
    match msg.payload with
    | some p =>
        if p.epic.isSome then
          match routerKey msg.destination p with
          | some key =>
              match regLookup key s.subs with
              | some info =>
                  if info.active then (s, some (key, info.callback))
                  else (s, none)
              | none => (s, none)
          | none => (s, none)
        else (s, none)
    | none => (s, none)

/-- One failed connection cycle of `_ws_run` (lines 907-972), taken as
one atomic step of the supervisor thread: `run_forever` has returned (so
`_ws_on_close` already cleared the connection and set `DISCONNECTED`);
with the stop event set the loop exits (thread finished, terminal
`DISCONNECTED`); with attempts remaining the backoff delay
`min(initial * 2 ** attempts, max)` is waited out, status is
`CONNECTING` and the counter increments; with attempts exhausted the stop
event is set and the loop exits.  The second component is the delay
waited, `none` when the loop exits instead. -/
def wsRunTail (s1 : SysState) : SysState × Option Nat :=
  if s1.stopEvent then
    ({ s1 with threadAlive := false }, none)
  else if s1.attempts < ws_max_reconnect_attempts then
    ({ s1 with status := WebSocketStatus.CONNECTING, attempts := s1.attempts + 1 },
     some (min (ws_initial_reconnect_delay * 2 ^ s1.attempts) ws_max_reconnect_delay))
  else
    ({ s1 with stopEvent := true, threadAlive := false }, none)

/-- A full failed connection cycle: closing effects, then `wsRunTail`. -/
def ws_run_fail (s : SysState) : SysState × Option Nat :=
  wsRunTail { s with connection := false, status := WebSocketStatus.DISCONNECTED }

/-- The per-record server-unsubscribe frame of
`stop_all_websocket_subscriptions` (lines 1188-1220): an `OHLC` record
with `resolution` or `bar_type` missing still gets a generic epics-only
unsubscribe frame. -/
def stopAllFrame (now : Nat) (cst xst : String) (kv : String × SubRecord) :
    ControlFrame :=
  let info := kv.2
  let extras :=
    match info.data_type with
    | .MARKET => (none, none)
    | .OHLC =>
        match info.resolution, info.bar_type with
        | some r, some b => (some [r.value], some [b.value])
        | _, _ => (none, none)
  { destination :=
      match info.data_type with
      | .MARKET => "marketData.unsubscribe"
      | .OHLC => "OHLCMarketData.unsubscribe",
    correlationId := "unsub-all-" ++ info.epic ++ "-" ++ info.data_type.value ++
      "-" ++ toString now,
    cst := cst, securityToken := xst,
    payload_epics := [info.epic],
    payload_resolutions := extras.1,
    payload_type := none,
    payload_types := extras.2 }

/-- `stop_all_websocket_subscriptions` (lines 1165-1228): captures and
clears the registry, best-effort sends one unsubscribe frame per captured
record when connected with tokens, then stops the WebSocket thread
unconditionally. -/
def stop_all_websocket_subscriptions (now : Nat) (s : SysState) :
    SysState × List ControlFrame :=
  (stopThread { s with subs := [] },
   if s.status = WebSocketStatus.CONNECTED ∧ s.connection ∧ hasTokens s then
     s.subs.map (stopAllFrame now (s.cst.getD "") (s.xst.getD ""))
   else [])

/-- The atomic events of the sequential embedding: the three facade
calls, the supervisor's open and failed-cycle transitions, an inbound
frame, and a change of the session tokens (login / token refresh /
logout, performed by the credential provider). -/
inductive Event where
  | esubscribe (now : Nat) (epic : String) (data_type : WebsocketDataType)
      (callback : Nat) (resolution : Option HistoricalPriceResolution)
      (bar_type : OhlcBarType)
  | eunsubscribe (now : Nat) (epic : String) (data_type : WebsocketDataType)
      (resolution : Option HistoricalPriceResolution) (bar_type : OhlcBarType)
  | estopAll (now : Nat)
  | eopen (now : Nat)
  | efail
  | emessage (msg : InMsg)
  | esetTokens (cst xst : Option String)

/-- State effect of one event.  A raised `ValueError` propagates to the
caller leaving the state unchanged; the supervisor transitions `eopen`
and `efail` fire only while the supervisor thread is alive, and an
inbound frame only while a connection exists. -/
def step (s : SysState) (e : Event) : SysState :=
  match e with
  | .esubscribe now epic dt cb res bar =>
      match subscribe_to_epic_data now epic dt cb res bar s with
      | .ok (s', _) => s'
      | .error _ => s
  | .eunsubscribe now epic dt res bar =>
      match unsubscribe_from_epic_data now epic dt res bar s with
      | .ok (s', _) => s'
      | .error _ => s
  | .estopAll now => (stop_all_websocket_subscriptions now s).1
  | .eopen now => if s.threadAlive then (ws_on_open now s).1 else s
  | .efail => if s.threadAlive then (ws_run_fail s).1 else s
  | .emessage msg => if s.connection then (ws_on_message msg s).1 else s
  | .esetTokens cst xst => { s with cst := cst, xst := xst }

/-- The state of a freshly constructed `CapitalComAPI` (lines 86-102):
empty registry, `DISCONNECTED`, no thread, no connection, no tokens,
zero reconnect attempts. -/
def initState : SysState :=
  { subs := [], status := WebSocketStatus.DISCONNECTED, stopEvent := false,
    threadAlive := false, connection := false, cst := none, xst := none,
    attempts := 0 }

/-- States reachable from a fresh manager by any sequence of events. -/
inductive Reachable : SysState → Prop where
  | init : Reachable initState
  | step {s : SysState} (h : Reachable s) (e : Event) : Reachable (step s e)

/-- The inductive invariant of the sequential embedding: an empty
registry means the supervisor is fully stopped; the transient `STOPPING`
status is never observable between events; a `DISCONNECTED` status means
no supervisor thread is alive; and every stored record is active. -/
def SysInv (s : SysState) : Prop :=
  (s.subs = [] → s.status = WebSocketStatus.DISCONNECTED ∧ s.threadAlive = false) ∧
  s.status ≠ WebSocketStatus.STOPPING ∧
  (s.status = WebSocketStatus.DISCONNECTED → s.threadAlive = false) ∧
  (∀ kv ∈ s.subs, kv.2.active = true)

theorem regUpsert_mem {k : String} {v : SubRecord} {kv : String × SubRecord} :
    ∀ {l : Registry}, kv ∈ regUpsert k v l → kv = (k, v) ∨ kv ∈ l := by
  intro l
  induction l with
  | nil =>
      intro h
      simp [regUpsert] at h
      exact Or.inl h
  | cons hd tl ih =>
      obtain ⟨k', v'⟩ := hd
      intro h
      by_cases hk : k' = k
      · simp only [regUpsert, if_pos hk] at h
        rcases List.mem_cons.mp h with h | h
        · exact Or.inl h
        · exact Or.inr (List.mem_cons_of_mem _ h)
      · simp only [regUpsert, if_neg hk] at h
        rcases List.mem_cons.mp h with h | h
        · exact Or.inr (by simp [h])
        · rcases ih h with h1 | h1
          · exact Or.inl h1
          · exact Or.inr (List.mem_cons_of_mem _ h1)

theorem regUpsert_ne_nil {k : String} {v : SubRecord} {l : Registry} :
    regUpsert k v l ≠ [] := by
  cases l with
  | nil => simp [regUpsert]
  | cons hd tl =>
      obtain ⟨k', v'⟩ := hd
      by_cases hk : k' = k <;> simp [regUpsert, hk]

theorem regPop_mem {k : String} {kv : String × SubRecord} :
    ∀ {l : Registry}, kv ∈ (regPop k l).2 → kv ∈ l := by
  intro l
  induction l with
  | nil =>
      intro h
      simp [regPop] at h
  | cons hd tl ih =>
      obtain ⟨k', v'⟩ := hd
      intro h
      by_cases hk : k' = k
      · simp only [regPop, if_pos hk] at h
        exact List.mem_cons_of_mem _ h
      · simp only [regPop, if_neg hk] at h
        rcases List.mem_cons.mp h with h | h
        · simp [h]
        · exact List.mem_cons_of_mem _ (ih h)

theorem regPop_of_lookup_none {k : String} :
    ∀ {l : Registry}, regLookup k l = none → regPop k l = (none, l) := by
  intro l
  induction l with
  | nil => intro _; simp [regPop]
  | cons hd tl ih =>
      obtain ⟨k', v'⟩ := hd
      intro h
      by_cases hk : k' = k
      · simp [regLookup, hk] at h
      · simp only [regLookup, if_neg hk] at h
        simp [regPop, hk, ih h]

theorem stopThread_spec (s : SysState) :
    (stopThread s).status = WebSocketStatus.DISCONNECTED ∧
    (stopThread s).threadAlive = false ∧
    (stopThread s).subs = s.subs := by
  unfold stopThread
  split
  · rename_i h
    exact ⟨h.1, h.2, rfl⟩
  · exact ⟨rfl, rfl, rfl⟩

theorem startThread_subs (s : SysState) : (startThread s).subs = s.subs := by
  unfold startThread
  split <;> rfl

theorem startThread_status (s : SysState) :
    (startThread s).status = WebSocketStatus.CONNECTED ∨
    (startThread s).status = WebSocketStatus.CONNECTING := by
  unfold startThread
  split
  · rename_i h
    exact Or.inl h.2
  · exact Or.inr rfl

theorem ws_on_message_frame_only (msg : InMsg) (s : SysState) :
    (ws_on_message msg s).1.subs = s.subs ∧
    (ws_on_message msg s).1.status = s.status ∧
    (ws_on_message msg s).1.threadAlive = s.threadAlive := by
  unfold ws_on_message
  repeat' split
  all_goals exact ⟨rfl, rfl, rfl⟩

theorem sysInv_init : SysInv initState := by
  refine ⟨fun _ => ⟨rfl, rfl⟩, by simp [initState], fun _ => rfl, ?_⟩
  intro kv hkv
  simp [initState] at hkv

theorem sysInv_upsert_start {s : SysState} (hInv : SysInv s)
    (key : String) (rec : SubRecord) (hrec : rec.active = true) :
    SysInv (startThread { s with subs := regUpsert key rec s.subs }) := by
  have hsubs := startThread_subs { s with subs := regUpsert key rec s.subs }
  have hstat := startThread_status { s with subs := regUpsert key rec s.subs }
  refine ⟨?_, ?_, ?_, ?_⟩
  · intro hnil
    rw [hsubs] at hnil
    exact absurd hnil regUpsert_ne_nil
  · rcases hstat with h | h <;> simp [h]
  · rcases hstat with h | h <;> simp [h]
  · intro kv hkv
    rw [hsubs] at hkv
    rcases regUpsert_mem hkv with h | h
    · rw [h]
      exact hrec
    · exact hInv.2.2.2 kv h

theorem sysInv_subscribe {s : SysState} (hInv : SysInv s)
    (now : Nat) (epic : String) (dt : WebsocketDataType) (cb : Nat)
    (res : Option HistoricalPriceResolution) (bar : OhlcBarType) :
    SysInv (step s (Event.esubscribe now epic dt cb res bar)) := by
  simp only [step]
  split
  · rename_i s' frames heq
    unfold subscribe_to_epic_data at heq
    split at heq
    · simp only [Except.ok.injEq, Prod.mk.injEq] at heq
      rw [← heq.1]
      exact hInv
    · split at heq
      · simp at heq
      · unfold subscribeSendPhase at heq
        split at heq <;>
          · simp only [Except.ok.injEq, Prod.mk.injEq] at heq
            rw [← heq.1]
            exact sysInv_upsert_start hInv _ _ rfl
  · exact hInv

theorem sysInv_unsubFinish {s1 : SysState}
    (h2 : s1.status ≠ WebSocketStatus.STOPPING)
    (h3 : s1.status = WebSocketStatus.DISCONNECTED → s1.threadAlive = false)
    (h4 : ∀ kv ∈ s1.subs, kv.2.active = true) :
    SysInv (unsubFinish s1) := by
  unfold unsubFinish
  split
  · have hs := stopThread_spec s1
    refine ⟨fun _ => ⟨hs.1, hs.2.1⟩, by rw [hs.1]; simp, fun _ => hs.2.1, ?_⟩
    intro kv hkv
    rw [hs.2.2] at hkv
    exact h4 kv hkv
  · rename_i h
    refine ⟨?_, h2, h3, h4⟩
    intro hnil
    have hd : s1.status = WebSocketStatus.DISCONNECTED := by
      by_contra hne
      exact h ⟨hnil, hne, h2⟩
    exact ⟨hd, h3 hd⟩

theorem sysInv_unsubscribe {s : SysState} (hInv : SysInv s)
    (now : Nat) (epic : String) (dt : WebsocketDataType)
    (res : Option HistoricalPriceResolution) (bar : OhlcBarType) :
    SysInv (step s (Event.eunsubscribe now epic dt res bar)) := by
  simp only [step]
  split
  · rename_i s' frames heq
    unfold unsubscribe_from_epic_data at heq
    split at heq
    · simp at heq
    · simp only [Except.ok.injEq, Prod.mk.injEq] at heq
      rw [← heq.1]
      apply sysInv_unsubFinish
      · exact hInv.2.1
      · exact fun h => hInv.2.2.1 h
      · intro kv hkv
        exact hInv.2.2.2 kv (regPop_mem hkv)
  · exact hInv

theorem sysInv_stopAll {s : SysState} (_hInv : SysInv s) (now : Nat) :
    SysInv (step s (Event.estopAll now)) := by
  simp only [step]
  show SysInv (stopThread { s with subs := ([] : Registry) })
  have hs := stopThread_spec { s with subs := ([] : Registry) }
  refine ⟨fun _ => ⟨hs.1, hs.2.1⟩, by rw [hs.1]; simp, fun _ => hs.2.1, ?_⟩
  intro kv hkv
  rw [hs.2.2] at hkv
  simp at hkv

theorem sysInv_open {s : SysState} (hInv : SysInv s) (now : Nat) :
    SysInv (step s (Event.eopen now)) := by
  simp only [step]
  split
  · rename_i halive
    unfold ws_on_open onOpenTokenPhase
    split
    · refine ⟨?_, by simp, by simp, hInv.2.2.2⟩
      intro hnil
      have hdead := (hInv.1 hnil).2
      rw [hdead] at halive
      simp at halive
    · refine ⟨?_, by simp, by simp, hInv.2.2.2⟩
      intro hnil
      have hdead := (hInv.1 hnil).2
      rw [hdead] at halive
      simp at halive
  · exact hInv

theorem sysInv_fail {s : SysState} (hInv : SysInv s) :
    SysInv (step s Event.efail) := by
  simp only [step]
  split
  · rename_i halive
    unfold ws_run_fail wsRunTail
    split
    · exact ⟨fun _ => ⟨rfl, rfl⟩, by simp, fun _ => rfl, hInv.2.2.2⟩
    · split
      · refine ⟨?_, by simp, by simp, hInv.2.2.2⟩
        intro hnil
        have hdead := (hInv.1 hnil).2
        rw [hdead] at halive
        simp at halive
      · exact ⟨fun _ => ⟨rfl, rfl⟩, by simp, fun _ => rfl, hInv.2.2.2⟩
  · exact hInv

theorem sysInv_message {s : SysState} (hInv : SysInv s) (msg : InMsg) :
    SysInv (step s (Event.emessage msg)) := by
  simp only [step]
  split
  · have h := ws_on_message_frame_only msg s
    refine ⟨?_, ?_, ?_, ?_⟩
    · intro hnil
      rw [h.1] at hnil
      rw [h.2.1, h.2.2]
      exact hInv.1 hnil
    · rw [h.2.1]
      exact hInv.2.1
    · rw [h.2.1, h.2.2]
      exact hInv.2.2.1
    · intro kv hkv
      rw [h.1] at hkv
      exact hInv.2.2.2 kv hkv
  · exact hInv

theorem sysInv_setTokens {s : SysState} (hInv : SysInv s)
    (cst xst : Option String) :
    SysInv (step s (Event.esetTokens cst xst)) := by
  simp only [step]
  exact hInv

theorem sysInv_step {s : SysState} (hInv : SysInv s) (e : Event) :
    SysInv (step s e) := by
  cases e with
  | esubscribe now epic dt cb res bar => exact sysInv_subscribe hInv now epic dt cb res bar
  | eunsubscribe now epic dt res bar => exact sysInv_unsubscribe hInv now epic dt res bar
  | estopAll now => exact sysInv_stopAll hInv now
  | eopen now => exact sysInv_open hInv now
  | efail => exact sysInv_fail hInv
  | emessage msg => exact sysInv_message hInv msg
  | esetTokens cst xst => exact sysInv_setTokens hInv cst xst

theorem sysInv_reachable {s : SysState} (h : Reachable s) : SysInv s := by
  induction h with
  | init => exact sysInv_init
  | step h e ih => exact sysInv_step ih e

/-- `n` consecutive failed connection cycles. -/
def failIter (s : SysState) : Nat → SysState
  | 0 => s
  | n + 1 => failIter (ws_run_fail s).1 n

/-- The backoff delays waited during `n` consecutive failed connection
cycles, in order. -/
def failDelays (s : SysState) : Nat → List Nat
  | 0 => []
  | n + 1 => (ws_run_fail s).2.toList ++ failDelays (ws_run_fail s).1 n

theorem ws_run_fail_stop {s : SysState} (he : s.stopEvent = true) :
    (ws_run_fail s).2 = none ∧
    (ws_run_fail s).1.attempts = s.attempts ∧
    (ws_run_fail s).1.stopEvent = true ∧
    (ws_run_fail s).1.status = WebSocketStatus.DISCONNECTED ∧
    (ws_run_fail s).1.threadAlive = false := by
  unfold ws_run_fail wsRunTail
  simp [he]

theorem ws_run_fail_backoff {s : SysState} (he : s.stopEvent = false)
    (ha : s.attempts < ws_max_reconnect_attempts) :
    (ws_run_fail s).2 =
      some (min (ws_initial_reconnect_delay * 2 ^ s.attempts) ws_max_reconnect_delay) ∧
    (ws_run_fail s).1.attempts = s.attempts + 1 ∧
    (ws_run_fail s).1.stopEvent = false ∧
    (ws_run_fail s).1.status = WebSocketStatus.CONNECTING ∧
    (ws_run_fail s).1.threadAlive = s.threadAlive := by
  unfold ws_run_fail wsRunTail
  simp [he, ha]

theorem ws_run_fail_exhausted {s : SysState} (he : s.stopEvent = false)
    (ha : ¬ s.attempts < ws_max_reconnect_attempts) :
    (ws_run_fail s).2 = none ∧
    (ws_run_fail s).1.status = WebSocketStatus.DISCONNECTED ∧
    (ws_run_fail s).1.threadAlive = false ∧
    (ws_run_fail s).1.stopEvent = true := by
  unfold ws_run_fail wsRunTail
  simp [he, ha]

theorem failState_congr : ∀ (n : Nat) {s t : SysState},
    s.attempts = t.attempts → s.stopEvent = t.stopEvent →
    failDelays s n = failDelays t n ∧
    (failIter s n).attempts = (failIter t n).attempts ∧
    (failIter s n).stopEvent = (failIter t n).stopEvent := by
  intro n
  induction n with
  | zero =>
      intro s t ha he
      exact ⟨rfl, ha, he⟩
  | succ n ih =>
      intro s t ha he
      have hds : failDelays s (n + 1) =
          (ws_run_fail s).2.toList ++ failDelays (ws_run_fail s).1 n := rfl
      have hdt : failDelays t (n + 1) =
          (ws_run_fail t).2.toList ++ failDelays (ws_run_fail t).1 n := rfl
      have his : failIter s (n + 1) = failIter (ws_run_fail s).1 n := rfl
      have hit : failIter t (n + 1) = failIter (ws_run_fail t).1 n := rfl
      rw [hds, hdt, his, hit]
      by_cases hse : s.stopEvent = true
      · have hte : t.stopEvent = true := by rw [← he]; exact hse
        have hs := ws_run_fail_stop hse
        have ht := ws_run_fail_stop hte
        have hrec := ih (s := (ws_run_fail s).1) (t := (ws_run_fail t).1)
          (by rw [hs.2.1, ht.2.1, ha]) (by rw [hs.2.2.1, ht.2.2.1])
        rw [hs.1, ht.1]
        exact ⟨by rw [hrec.1], hrec.2.1, hrec.2.2⟩
      · have hse' : s.stopEvent = false := by
          cases hb : s.stopEvent
          · rfl
          · exact absurd hb hse
        have hte : t.stopEvent = false := by rw [← he]; exact hse'
        by_cases hlt : s.attempts < ws_max_reconnect_attempts
        · have hlt' : t.attempts < ws_max_reconnect_attempts := ha ▸ hlt
          have hs := ws_run_fail_backoff hse' hlt
          have ht := ws_run_fail_backoff hte hlt'
          have hrec := ih (s := (ws_run_fail s).1) (t := (ws_run_fail t).1)
            (by rw [hs.2.1, ht.2.1, ha]) (by rw [hs.2.2.1, ht.2.2.1])
          rw [hs.1, ht.1, ha]
          exact ⟨by rw [hrec.1], hrec.2.1, hrec.2.2⟩
        · have hlt' : ¬ t.attempts < ws_max_reconnect_attempts := ha ▸ hlt
          have hs := ws_run_fail_exhausted hse' hlt
          have ht := ws_run_fail_exhausted hte hlt'
          have hrec := ih (s := (ws_run_fail s).1) (t := (ws_run_fail t).1)
            (by
              unfold ws_run_fail wsRunTail
              simp [hse', hte, hlt, hlt', ha])
            (by rw [hs.2.2.2, ht.2.2.2])
          rw [hs.1, ht.1]
          exact ⟨by rw [hrec.1], hrec.2.1, hrec.2.2⟩

/-- Claim C1: starting a run of the reconnect loop from zero attempts,
the backoff delay before the n-th reconnect attempt (index n-1 in the
delay list, n = 1..10) is min(5 * 2 ^ (n-1), 60) time-units, i.e. the
sequence 5, 10, 20, 40, 60, 60, 60, 60, 60, 60; and on the failure after
the 10 attempts are exhausted the loop exits with no backoff wait, the
status becomes terminal `DISCONNECTED`, the supervisor thread finishes,
and a further failure event changes nothing. -/
theorem backoff_sequence_and_exhaustion (s : SysState)
    (h0 : s.attempts = 0) (he : s.stopEvent = false) :
    failDelays s ws_max_reconnect_attempts =
      [5, 10, 20, 40, 60, 60, 60, 60, 60, 60] ∧
    (∀ n, n < ws_max_reconnect_attempts →
      (failDelays s ws_max_reconnect_attempts).get? n =
        some (min (ws_initial_reconnect_delay * 2 ^ n) ws_max_reconnect_delay)) ∧
    (ws_run_fail (failIter s ws_max_reconnect_attempts)).2 = none ∧
    (ws_run_fail (failIter s ws_max_reconnect_attempts)).1.status =
      WebSocketStatus.DISCONNECTED ∧
    (ws_run_fail (failIter s ws_max_reconnect_attempts)).1.threadAlive = false ∧
    step (ws_run_fail (failIter s ws_max_reconnect_attempts)).1 Event.efail =
      (ws_run_fail (failIter s ws_max_reconnect_attempts)).1 := by
  have hc := failState_congr ws_max_reconnect_attempts (s := s) (t := initState)
    (by rw [h0]; rfl) (by rw [he]; rfl)
  have hL : failDelays initState ws_max_reconnect_attempts =
      [5, 10, 20, 40, 60, 60, 60, 60, 60, 60] := by decide
  have hA : (failIter initState ws_max_reconnect_attempts).attempts = 10 := by decide
  have hE : (failIter initState ws_max_reconnect_attempts).stopEvent = false := by decide
  have hlist := hc.1.trans hL
  have ha10 : (failIter s ws_max_reconnect_attempts).attempts = 10 := hc.2.1.trans hA
  have he10 : (failIter s ws_max_reconnect_attempts).stopEvent = false := hc.2.2.trans hE
  have hexh := ws_run_fail_exhausted he10 (by rw [ha10]; decide)
  refine ⟨hlist, ?_, hexh.1, hexh.2.1, hexh.2.2.1, ?_⟩
  · rw [hlist]
    decide
  · simp only [step, hexh.2.2.1]
    split
    · rename_i hcontra
      cases hcontra
    · rfl

/-- Witness for C1 at the freshly constructed manager state. -/
theorem backoff_sequence_and_exhaustion_witness :
    failDelays initState ws_max_reconnect_attempts =
      [5, 10, 20, 40, 60, 60, 60, 60, 60, 60] :=
  (backoff_sequence_and_exhaustion initState rfl rfl).1

/-- The frame content the claim prescribes per registry record:
`marketData.subscribe` with `payload.epics = [symbol]` for `MARKET`;
`OHLCMarketData.subscribe` with `resolutions = [resolution]` and
`type = barShape` for `OHLC`; an `OHLC` record with resolution or bar
shape missing yields no frame; an inactive record yields no frame. -/
def claimResubFrame (kv : String × SubRecord) :
    Option (String × List String × Option (List String) × Option String) :=
  if kv.2.active then
    match kv.2.data_type with
    | .MARKET => some ("marketData.subscribe", [kv.2.epic], none, none)
    | .OHLC =>
        match kv.2.resolution, kv.2.bar_type with
        | some r, some b =>
            some ("OHLCMarketData.subscribe", [kv.2.epic], some [r.value], some b.value)
        | _, _ => none
  else none

theorem resubLoop_spec (now : Nat) (cst xst : String) :
    ∀ l : Registry,
      (resubLoop now cst xst l).map
          (fun f => (f.destination, f.payload_epics, f.payload_resolutions, f.payload_type)) =
        l.filterMap claimResubFrame := by
  intro l
  induction l with
  | nil => rfl
  | cons hd tl ih =>
      obtain ⟨k, info⟩ := hd
      cases hact : info.active
      · simp [resubLoop, claimResubFrame, hact, ih]
      · cases hdt : info.data_type
        · simp [resubLoop, claimResubFrame, hact, hdt, ih]
        · cases hres : info.resolution <;> cases hbar : info.bar_type <;>
            simp [resubLoop, claimResubFrame, hact, hdt, hres, hbar, ih]

/-- Claim C2: on a successful open with auth tokens present, the open
handler emits exactly one subscribe control frame per active registry
record in the snapshot, with destination and payload derived from that
record as `claimResubFrame` prescribes, skipping (only) OHLC records with
a missing resolution or bar shape without blocking the rest. -/
theorem on_open_resubscription (now : Nat) (s : SysState)
    (htok : hasTokens s = true) :
    (ws_on_open now s).2.map
        (fun f => (f.destination, f.payload_epics, f.payload_resolutions, f.payload_type)) =
      s.subs.filterMap claimResubFrame ∧
    (ws_on_open now s).1.status = WebSocketStatus.CONNECTED := by
  unfold ws_on_open onOpenTokenPhase
  split
  · rename_i hbad
    have hbad' : hasTokens s = false := hbad
    rw [htok] at hbad'
    cases hbad'
  · exact ⟨resubLoop_spec now _ _ s.subs, rfl⟩

/-- A connected-with-tokens state holding one record of each interesting
shape: a MARKET record, a complete OHLC record, and a defective OHLC
record with no resolution. -/
def sOpen : SysState :=
  { subs := [("/market/BTCUSD", ⟨1, "BTCUSD", .MARKET, none, some .CLASSIC, true⟩),
             ("/ohlc/EURUSD/MINUTE_5/classic", ⟨2, "EURUSD", .OHLC, some .MINUTE_5, some .CLASSIC, true⟩),
             ("/ohlc/BAD/MINUTE/classic", ⟨3, "BAD", .OHLC, none, some .CLASSIC, true⟩)],
    status := WebSocketStatus.CONNECTING, stopEvent := false,
    threadAlive := true, connection := false,
    cst := some "c", xst := some "x", attempts := 0 }

/-- Witness for C2 at the concrete state `sOpen`. -/
theorem on_open_resubscription_witness :
    (ws_on_open 0 sOpen).2.map
        (fun f => (f.destination, f.payload_epics, f.payload_resolutions, f.payload_type)) =
      sOpen.subs.filterMap claimResubFrame ∧
    (ws_on_open 0 sOpen).1.status = WebSocketStatus.CONNECTED :=
  on_open_resubscription 0 sOpen (by decide)

/-- Claim C4: the canonical stream key computed on the subscribe side
equals the key the router derives from the corresponding inbound data
frame: `"/market/" + symbol` from a `quote` frame with `payload.epic`,
and `"/ohlc/" + symbol + "/" + resolution + "/" + barShape` from an
`ohlc.event` frame carrying epic, resolution and type. -/
theorem canonical_key_agreement (epic : String)
    (r : HistoricalPriceResolution) (b : OhlcBarType) :
    routerKey (some "quote")
        { epic := some epic, resolution := none, type := none,
          subscriptionsFirstValue := none } =
      (subscribeControl WebsocketDataType.MARKET epic none b).map (fun c => c.1) ∧
    routerKey (some "ohlc.event")
        { epic := some epic, resolution := some r.value, type := some b.value,
          subscriptionsFirstValue := none } =
      (subscribeControl WebsocketDataType.OHLC epic (some r) b).map (fun c => c.1) := by
  constructor
  · rfl
  · cases r <;> cases b <;> rfl

/-- Claim C3: an inbound frame carrying the explicit
authentication-failure error code makes the manager stop at once: the
stop event is set, the connection is closed, no callback fires, the
registry is untouched, and the run loop then exits — no backoff delay is
waited, the thread finishes, and no retry is consumed (the attempt
counter is unchanged) — regardless of the remaining attempt budget. -/
theorem auth_failure_fatal (msg : InMsg) (s : SysState)
    (hcode : msg.errorCode = some "exceptions.security.authentication-failure") :
    (ws_on_message msg s).1.stopEvent = true ∧
    (ws_on_message msg s).1.connection = false ∧
    (ws_on_message msg s).2 = none ∧
    (ws_on_message msg s).1.subs = s.subs ∧
    (ws_run_fail (ws_on_message msg s).1).2 = none ∧
    (ws_run_fail (ws_on_message msg s).1).1.threadAlive = false ∧
    (ws_run_fail (ws_on_message msg s).1).1.status = WebSocketStatus.DISCONNECTED ∧
    (ws_run_fail (ws_on_message msg s).1).1.attempts = s.attempts := by
  have h1 : ws_on_message msg s = ({ s with stopEvent := true, connection := false }, none) := by
    unfold ws_on_message
    rw [hcode]
    simp [strTruthy]
  rw [h1]
  have h2 := ws_run_fail_stop (s := { s with stopEvent := true, connection := false }) rfl
  exact ⟨rfl, rfl, rfl, rfl, h2.1, h2.2.2.2.2, h2.2.2.2.1, h2.2.1⟩

/-- The authentication-failure error frame. -/
def msgAuthFail : InMsg :=
  { errorCode := some "exceptions.security.authentication-failure",
    status := none, correlationId := none, destination := none,
    payload := none }

/-- A connected state with a full remaining attempt budget. -/
def sConnected : SysState :=
  { subs := [("/market/BTCUSD", ⟨1, "BTCUSD", .MARKET, none, some .CLASSIC, true⟩)],
    status := WebSocketStatus.CONNECTED, stopEvent := false,
    threadAlive := true, connection := true,
    cst := some "c", xst := some "x", attempts := 0 }

/-- Witness for C3 at a connected state with zero attempts used. -/
theorem auth_failure_fatal_witness :
    (ws_on_message msgAuthFail sConnected).1.stopEvent = true ∧
    (ws_on_message msgAuthFail sConnected).1.connection = false ∧
    (ws_on_message msgAuthFail sConnected).2 = none ∧
    (ws_on_message msgAuthFail sConnected).1.subs = sConnected.subs ∧
    (ws_run_fail (ws_on_message msgAuthFail sConnected).1).2 = none ∧
    (ws_run_fail (ws_on_message msgAuthFail sConnected).1).1.threadAlive = false ∧
    (ws_run_fail (ws_on_message msgAuthFail sConnected).1).1.status =
      WebSocketStatus.DISCONNECTED ∧
    (ws_run_fail (ws_on_message msgAuthFail sConnected).1).1.attempts =
      sConnected.attempts :=
  auth_failure_fatal msgAuthFail sConnected rfl

/-- A logged-in but otherwise fresh manager state. -/
def sTok : SysState :=
  { subs := [], status := WebSocketStatus.DISCONNECTED, stopEvent := false,
    threadAlive := false, connection := false,
    cst := some "c", xst := some "x", attempts := 0 }

/-- Counterexample to claim C5 as stated: with auth tokens absent,
`subscribe_to_epic_data` neither validates (no `ValueError` even for
`OHLC` with no resolution) nor upserts — it returns leaving the registry,
and the whole state, unchanged (source lines 1047-1050). -/
theorem subscribe_no_login_counterexample :
    subscribe_to_epic_data 0 "EURUSD" WebsocketDataType.OHLC 1 none
        OhlcBarType.CLASSIC initState = .ok (initState, []) ∧
    initState.subs = [] := by
  constructor
  · rfl
  · rfl

/-- Claim C5 amended: for every call made with auth tokens PRESENT (with
tokens absent the call returns unchanged), `subscribe_to_epic_data`
validates that a resolution accompanies `OHLC` (raising `ValueError`
otherwise), computes the canonical key, and upserts the record into the
registry under that key — in every connection state. -/
theorem subscribe_validates_and_upserts (now : Nat) (epic : String)
    (dt : WebsocketDataType) (cb : Nat)
    (res : Option HistoricalPriceResolution) (bar : OhlcBarType)
    (s : SysState) (htok : hasTokens s = true) :
    (dt = WebsocketDataType.OHLC → res = none →
      subscribe_to_epic_data now epic dt cb res bar s =
        .error "Resolution must be provided for OHLC data type subscription.") ∧
    (∀ key cd pr pt, subscribeControl dt epic res bar = some (key, cd, pr, pt) →
      (subscribe_to_epic_data now epic dt cb res bar s).toOption.map Prod.fst =
        some (startThread
          { s with subs := regUpsert key (subRecordOf cb epic dt res bar) s.subs })) := by
  constructor
  · intro hdt hres
    subst hdt
    subst hres
    unfold subscribe_to_epic_data
    rw [htok]
    simp [subscribeControl]
  · intro key cd pr pt hctl
    unfold subscribe_to_epic_data
    rw [htok]
    simp only [Bool.true_eq_false, if_false]
    rw [hctl]
    split
    · rename_i heq
      exact Option.noConfusion heq
    · rename_i k2 cd2 pr2 pt2 heq
      simp only [Option.some.injEq, Prod.mk.injEq] at heq
      obtain ⟨hk, -, -, -⟩ := heq
      subst hk
      unfold subscribeSendPhase
      split <;> rfl

/-- Witness for the amended C5: the `ValueError` branch at a logged-in
state, and the upsert at a logged-in state for a `MARKET` call. -/
theorem subscribe_validates_and_upserts_witness :
    subscribe_to_epic_data 0 "X" WebsocketDataType.OHLC 1 none
        OhlcBarType.CLASSIC sTok =
      .error "Resolution must be provided for OHLC data type subscription." ∧
    (subscribe_to_epic_data 0 "X" WebsocketDataType.MARKET 1 none
        OhlcBarType.CLASSIC sTok).toOption.map Prod.fst =
      some (startThread
        { sTok with subs := (regUpsert "/market/X" (subRecordOf 1 "X" WebsocketDataType.MARKET none OhlcBarType.CLASSIC) sTok.subs) }) :=
  ⟨(subscribe_validates_and_upserts 0 "X" WebsocketDataType.OHLC 1 none
      OhlcBarType.CLASSIC sTok (by decide)).1 rfl rfl,
   (subscribe_validates_and_upserts 0 "X" WebsocketDataType.MARKET 1 none
      OhlcBarType.CLASSIC sTok (by decide)).2 "/market/X" "marketData.subscribe"
      none none rfl⟩

/-- A connected state subscribed to the OHLC stream
`/ohlc/E/MINUTE/classic`. -/
def sOhlc : SysState :=
  { subs := [("/ohlc/E/MINUTE/classic", ⟨7, "E", .OHLC, some .MINUTE, some .CLASSIC, true⟩)],
    status := WebSocketStatus.CONNECTED, stopEvent := false,
    threadAlive := true, connection := true,
    cst := some "c", xst := some "x", attempts := 0 }

/-- An inbound `ohlc.event` data frame whose payload carries an epic and
a resolution but NO bar-shape (`type`) field. -/
def msgOhlcNoType : InMsg :=
  { errorCode := none, status := none, correlationId := none,
    destination := some "ohlc.event",
    payload := some { epic := some "E", resolution := some "MINUTE",
                      type := none, subscriptionsFirstValue := none } }

/-- Counterexample to claim C6 as stated: an inbound OHLC data frame with
the bar-shape (`type`) field missing is NOT dropped — the router defaults
the bar shape to `classic` (source line 785) and dispatches the frame to
the subscriber callback. -/
theorem ohlc_missing_type_counterexample :
    (ws_on_message msgOhlcNoType sOhlc).2 = some ("/ohlc/E/MINUTE/classic", 7) := by
  decide

/-- Claim C6 amended: building the OHLC stream key requires only a
(truthy) resolution field in the payload; a missing bar-shape field is
defaulted to `classic` rather than making the frame be dropped.  When the
resolution is missing the frame IS dropped: no subscriber callback runs
and the state is unchanged. -/
theorem ohlc_missing_resolution_dropped :
    (∀ (s : SysState) (msg : InMsg) (p : WsPayload),
      msg.payload = some p → msg.destination = some "ohlc.event" →
      strTruthy msg.errorCode = false → strTruthy p.resolution = false →
      (ws_on_message msg s).2 = none ∧ (ws_on_message msg s).1 = s) ∧
    (∀ (epic r : String), r ≠ "" →
      routerKey (some "ohlc.event")
          { epic := some epic, resolution := some r, type := none,
            subscriptionsFirstValue := none } =
        some ("/ohlc/" ++ epic ++ "/" ++ r ++ "/" ++ OhlcBarType.CLASSIC.value)) := by
  constructor
  · intro s msg p hp hdest herr hres
    have hkey : routerKey msg.destination p = none := by
      unfold routerKey
      cases hepic : p.epic
      · rfl
      · rw [hdest]
        simp [hres]
    unfold ws_on_message
    rw [herr]
    simp only [Bool.false_eq_true, if_false]
    split
    · exact ⟨rfl, rfl⟩
    · rw [hp]
      cases hepic : p.epic.isSome
      · simp [hepic]
      · simp only [hepic, if_true]
        rw [hkey]
        exact ⟨rfl, rfl⟩
  · intro epic r hr
    unfold routerKey
    simp [strTruthy, hr]

/-- An inbound `ohlc.event` frame with no resolution field. -/
def msgOhlcNoRes : InMsg :=
  { errorCode := none, status := none, correlationId := none,
    destination := some "ohlc.event",
    payload := some { epic := some "E", resolution := none,
                      type := some "classic", subscriptionsFirstValue := none } }

/-- Witness for the amended C6: the no-resolution frame is dropped at the
subscribed state `sOhlc`. -/
theorem ohlc_missing_resolution_dropped_witness :
    (ws_on_message msgOhlcNoRes sOhlc).2 = none ∧
    (ws_on_message msgOhlcNoRes sOhlc).1 = sOhlc :=
  ohlc_missing_resolution_dropped.1 sOhlc msgOhlcNoRes
    { epic := some "E", resolution := none, type := some "classic",
      subscriptionsFirstValue := none } rfl rfl rfl rfl

theorem regLookup_mem {k : String} {v : SubRecord} :
    ∀ {l : Registry}, regLookup k l = some v → (k, v) ∈ l := by
  intro l
  induction l with
  | nil => intro h; cases h
  | cons hd tl ih =>
      obtain ⟨k', v'⟩ := hd
      intro h
      by_cases hk : k' = k
      · simp only [regLookup, if_pos hk] at h
        subst hk
        cases h
        simp
      · simp only [regLookup, if_neg hk] at h
        exact List.mem_cons_of_mem _ (ih h)

/-- Claim C7: from every reachable manager state, an unsubscribe call
whose canonical key has no registry record is a no-op apart from logging:
it returns the state literally unchanged (registry, status, supervisor
flags) and sends no frame.  (The stop-on-empty check at the end of
`unsubscribe_from_epic_data` cannot fire: by the invariant an empty
registry only occurs with status `DISCONNECTED`.) -/
theorem unsubscribe_missing_key_noop (now : Nat) (epic : String)
    (dt : WebsocketDataType) (res : Option HistoricalPriceResolution)
    (bar : OhlcBarType) (s : SysState) (hreach : Reachable s)
    (key cd : String) (pr pt : Option (List String))
    (hctl : unsubscribeControl dt epic res bar = some (key, cd, pr, pt))
    (hmiss : regLookup key s.subs = none) :
    unsubscribe_from_epic_data now epic dt res bar s = .ok (s, []) := by
  have hpop := regPop_of_lookup_none hmiss
  have hInv := sysInv_reachable hreach
  have hfin : unsubFinish s = s := by
    unfold unsubFinish
    split
    · rename_i h
      exact absurd (hInv.1 h.1).1 h.2.1
    · rfl
  unfold unsubscribe_from_epic_data
  rw [hctl]
  split
  · rename_i heq
    exact Option.noConfusion heq
  · rename_i k2 cd2 pr2 pt2 heq
    simp only [Option.some.injEq, Prod.mk.injEq] at heq
    obtain ⟨hk, -, -, -⟩ := heq
    subst hk
    rw [hpop]
    simp [unsubFrames, hfin]

/-- Witness for C7: unsubscribing an absent key at the freshly
constructed (reachable) manager state. -/
theorem unsubscribe_missing_key_noop_witness :
    unsubscribe_from_epic_data 0 "X" WebsocketDataType.MARKET none
        OhlcBarType.CLASSIC initState = .ok (initState, []) :=
  unsubscribe_missing_key_noop 0 "X" WebsocketDataType.MARKET none
    OhlcBarType.CLASSIC initState Reachable.init
    "/market/X" "marketData.unsubscribe" none none rfl rfl

/-- Claim C8: from every reachable state, an unsubscribe call that
removes the last remaining record (so the registry becomes empty) leaves
the manager with an empty registry, status `DISCONNECTED`, and no live
supervisor thread — and neither a further failure event nor an open event
can change that state (no further reconnect attempts). -/
theorem unsubscribe_last_record_stops (now : Nat) (epic : String)
    (dt : WebsocketDataType) (res : Option HistoricalPriceResolution)
    (bar : OhlcBarType) (s : SysState) (hreach : Reachable s)
    (key cd : String) (pr pt : Option (List String))
    (hctl : unsubscribeControl dt epic res bar = some (key, cd, pr, pt))
    (hempty : (regPop key s.subs).2 = []) :
    match unsubscribe_from_epic_data now epic dt res bar s with
    | .ok (s', _) =>
        s'.subs = [] ∧ s'.status = WebSocketStatus.DISCONNECTED ∧
        s'.threadAlive = false ∧ step s' Event.efail = s' ∧
        step s' (Event.eopen now) = s'
    | .error _ => False := by
  have hInv := sysInv_reachable hreach
  unfold unsubscribe_from_epic_data
  rw [hctl]
  show (unsubFinish { s with subs := (regPop key s.subs).2 }).subs = [] ∧ _
  unfold unsubFinish
  split
  · have hs := stopThread_spec { s with subs := (regPop key s.subs).2 }
    refine ⟨by rw [hs.2.2]; exact hempty, hs.1, hs.2.1, ?_, ?_⟩
    · simp [step, hs.2.1]
    · simp [step, hs.2.1]
  · rename_i hcond
    have hstat : s.status = WebSocketStatus.DISCONNECTED := by
      by_contra hne
      exact hcond ⟨hempty, hne, hInv.2.1⟩
    have halive : s.threadAlive = false := hInv.2.2.1 hstat
    refine ⟨hempty, hstat, halive, ?_, ?_⟩
    · simp [step, halive]
    · simp [step, halive]

/-- A reachable state holding exactly one subscription: tokens set, then
one `MARKET` subscribe. -/
def sOneSub : SysState :=
  step (step initState (Event.esetTokens (some "c") (some "x")))
    (Event.esubscribe 0 "BTCUSD" WebsocketDataType.MARKET 7 none OhlcBarType.CLASSIC)

theorem sOneSub_reachable : Reachable sOneSub :=
  Reachable.step (Reachable.step Reachable.init _) _

/-- Witness for C8: unsubscribing the single record of `sOneSub`. -/
theorem unsubscribe_last_record_stops_witness :
    match unsubscribe_from_epic_data 1 "BTCUSD" WebsocketDataType.MARKET none
        OhlcBarType.CLASSIC sOneSub with
    | .ok (s', _) =>
        s'.subs = [] ∧ s'.status = WebSocketStatus.DISCONNECTED ∧
        s'.threadAlive = false ∧ step s' Event.efail = s' ∧
        step s' (Event.eopen 1) = s'
    | .error _ => False :=
  unsubscribe_last_record_stops 1 "BTCUSD" WebsocketDataType.MARKET none
    OhlcBarType.CLASSIC sOneSub sOneSub_reachable
    "/market/BTCUSD" "marketData.unsubscribe" none none rfl (by decide)

/-- Claim C9: an unsubscribe call with kind `OHLC` and no resolution
raises `ValueError` for every manager state — the raise happens before
the registry is read or modified, so registry, connection state and
supervisor are untouched. -/
theorem unsubscribe_ohlc_no_resolution_raises (now : Nat) (epic : String)
    (bar : OhlcBarType) (s : SysState) :
    unsubscribe_from_epic_data now epic WebsocketDataType.OHLC none bar s =
      .error "Resolution must be provided for OHLC data type unsubscription to identify the correct stream." :=
  rfl

/-- Claim C10: in every reachable state, every record held in the
registry has its `active` flag equal to `True` — subscribe only inserts
active records and unsubscribe/stop-all only delete — so the
inactive-record branches of the router and of the on-open resubscriber
never fire: any successful registry lookup yields an active record. -/
theorem registry_records_always_active (s : SysState) (hreach : Reachable s) :
    (∀ kv ∈ s.subs, kv.2.active = true) ∧
    (∀ key info, regLookup key s.subs = some info → info.active = true) := by
  have h := (sysInv_reachable hreach).2.2.2
  exact ⟨h, fun key info hl => h (key, info) (regLookup_mem hl)⟩

/-- Witness for C10: the single record of the reachable state `sOneSub`
is active. -/
theorem registry_records_always_active_witness :
    (subRecordOf 7 "BTCUSD" WebsocketDataType.MARKET none OhlcBarType.CLASSIC).active = true :=
  (registry_records_always_active sOneSub sOneSub_reachable).2 "/market/BTCUSD"
    (subRecordOf 7 "BTCUSD" WebsocketDataType.MARKET none OhlcBarType.CLASSIC) (by decide)
